import Mathlib

/-!
# LM75 temperature sensor driver (`Final_project/lm75.c`)

A shallow embedding of the driver's four functions

* `lm75_read_raw`   (lm75.c lines 25-63)
* `lm75_write_raw`  (lm75.c lines 65-84)
* `lm75_identify`   (lm75.c lines 99-111)
* `lm75_probe`      (lm75.c lines 113-142)

The SMBus transport and the IIO/devres framework are external to the driver.
They are a parameter (`Platform`) acting on an abstract hardware state, and
every call the driver makes into them is appended to a trace, so that "issues
no bus transaction" is a statement about the trace.
-/

namespace LM75

/-! ## Constants -/

/-- Register `LM75_REG_TEMP` (lm75.c line 10). -/
def LM75_REG_TEMP : Nat := 0x0
/-- Register `LM75_REG_CFGR` (lm75.c line 11). -/
def LM75_REG_CFGR : Nat := 0x1
/-- Register `LM75_REG_THYST` (lm75.c line 12). -/
def LM75_REG_THYST : Nat := 0x2
/-- Register `LM75_REG_TEMP_OFFSET` (lm75.c line 13). -/
def LM75_REG_TEMP_OFFSET : Nat := 0x3
/-- Modelled from the spec: `LM75_REG_DEVICE_ID` is used by `lm75_identify`
but not defined in lm75.c; the register map of the spec puts DEVICE_IDENTITY
at address 0x7. -/
def LM75_REG_DEVICE_ID : Nat := 0x7

/-- Constant `LM75_RESOLUTION_10UC` (lm75.c line 16). -/
def LM75_RESOLUTION_10UC : Int := 125
/-- Constant `LM75_DEVICE_ID` (lm75.c line 17). -/
def LM75_DEVICE_ID : Int := 0x7
/-- Constant `MICRODEGREE_PER_10MILLIDEGREE` (lm75.c line 18). -/
def MICRODEGREE_PER_10MILLIDEGREE : Int := 10000

/-- Modelled from the spec: `S9_MIN` is not defined in lm75.c; the spec's
`clamp_calibration` clamps into [-256, 255]. -/
def S9_MIN : Int := -256
/-- Modelled from the spec: `S9_MAX` is not defined in lm75.c; the spec's
`clamp_calibration` clamps into [-256, 255]. -/
def S9_MAX : Int := 255

/-- Kernel errno `EINVAL` (invalid argument). -/
def EINVAL : Int := 22
/-- Kernel errno `ENODEV` (no such device). -/
def ENODEV : Int := 19
/-- Kernel errno `EOPNOTSUPP` (operation not supported). -/
def EOPNOTSUPP : Int := 95
/-- Kernel errno `ENOMEM` (cannot allocate memory). -/
def ENOMEM : Int := 12

/-- IIO return code: `*val` holds a plain integer. -/
def IIO_VAL_INT : Int := 1
/-- IIO return code: `*val` holds the integer part and `*val2` the micro part. -/
def IIO_VAL_INT_PLUS_MICRO : Int := 2

/-- Information kind `IIO_CHAN_INFO_RAW` of `enum iio_chan_info_enum`. -/
def IIO_CHAN_INFO_RAW : Int := 0
/-- Information kind `IIO_CHAN_INFO_SCALE` of `enum iio_chan_info_enum`. -/
def IIO_CHAN_INFO_SCALE : Int := 2
/-- Information kind `IIO_CHAN_INFO_CALIBBIAS` of `enum iio_chan_info_enum`. -/
def IIO_CHAN_INFO_CALIBBIAS : Int := 5

/-- Channel type `IIO_TEMP` of `enum iio_chan_type`. -/
def IIO_TEMP : Nat := 9
/-- Device mode `INDIO_DIRECT_MODE`. -/
def INDIO_DIRECT_MODE : Nat := 1

/-- The kernel's `BIT(n)`. -/
def BIT (n : Int) : Nat := 2 ^ n.toNat

/-! ## Machine integers -/

/-- Conversion of an integer to a signed two's-complement type of `bits` bits
(the value kept when it is stored in a variable of that type). -/
def wrap_signed (bits : Nat) (x : Int) : Int :=
  (x + 2 ^ (bits - 1)) % 2 ^ bits - 2 ^ (bits - 1)

/-- Store into a variable of the driver's type `s9` (lm75.c lines 22, 70). -/
def to_s9 (x : Int) : Int := wrap_signed 9 x

/-- Store into a variable of the driver's type `s18` (lm75.c line 30). -/
def to_s18 (x : Int) : Int := wrap_signed 18 x

/-- Sign extension of the field in bits [index:0] of a `width`-bit value, bit
`index` being the sign bit: "widening an N-bit two's-complement field to a
full-width signed integer by replicating its sign bit" (spec glossary). -/
def sign_extend (width : Nat) (value : Int) (index : Nat) : Int :=
  let field := (value % 2 ^ width) % 2 ^ (index + 1)
  if 2 ^ index ≤ field then field - 2 ^ (index + 1) else field

/-- Modelled from the spec: the helper `sign_extend18(value, index)` is called
at lm75.c line 38 but not defined in lm75.c.  The spec's `decode_temperature`
"treats the raw word's bits [15:8] (whole byte) plus the next bit as a 9-bit
two's-complement quantity; sign-extends from bit 8", and its register map gives
TEMPERATURE as "9-bit two's complement in bits [15:7]": the field is the top
`index + 1` bits of the 16-bit raw word, and bit `index` of the field is the
sign bit. -/
def sign_extend18 (value : Int) (index : Nat) : Int :=
  let field := (value % 2 ^ 16) / 2 ^ (15 - index) % 2 ^ (index + 1)
  if 2 ^ index ≤ field then field - 2 ^ (index + 1) else field

/-- Modelled from the spec: the helper `sign_extend16(value, index)` is called
at lm75.c line 46 but not defined in lm75.c.  The spec's `decode_calibration`
"sign-extends from bit 9, yielding a 10-bit-wide two's-complement value": the
field is bits [index:0] of the raw word and bit `index` is the sign bit. -/
def sign_extend16 (value : Int) (index : Nat) : Int := sign_extend 16 value index

/-- The kernel's `clamp_t(int, val, lo, hi)`: `min(max(val, lo), hi)`. -/
def clamp_t (val lo hi : Int) : Int := min (max val lo) hi

/-! ## The platform the driver runs on -/

/-- One call of the driver into the bus transport or the device framework. -/
inductive Event where
  | smbus_read_word (client : Nat) (reg : Nat)
  | smbus_read_word_swapped (client : Nat) (reg : Nat)
  | smbus_write_word (client : Nat) (reg : Nat) (value : Int)
  | iio_device_alloc
  | iio_device_register
  deriving DecidableEq, Repr

/-- Bus transactions among the events. -/
def Event.isBus : Event → Bool
  | .smbus_read_word _ _ => true
  | .smbus_read_word_swapped _ _ => true
  | .smbus_write_word _ _ _ => true
  | .iio_device_alloc => false
  | .iio_device_register => false

/-- Bus write transactions among the events. -/
def Event.isBusWrite : Event → Bool
  | .smbus_write_word _ _ _ => true
  | _ => false

/-- The external functions the driver calls, over a hardware state `σ`.
Bus functions return the C result (negative errno on failure) and the new
hardware state. -/
structure Platform (σ : Type) where
  /-- Result of `i2c_check_functionality(client->adapter, I2C_FUNC_SMBUS_WORD_DATA)`. -/
  i2c_check_functionality : σ → Nat → Bool
  /-- Word read `i2c_smbus_read_word(client, reg)`. -/
  i2c_smbus_read_word : σ → Nat → Nat → Int × σ
  /-- Byte-swapped word read `i2c_smbus_read_word_swapped(client, reg)`. -/
  i2c_smbus_read_word_swapped : σ → Nat → Nat → Int × σ
  /-- Word write `i2c_smbus_write_word(client, reg, value)`. -/
  i2c_smbus_write_word : σ → Nat → Nat → Int → Int × σ
  /-- Whether `devm_iio_device_alloc` returns a device (non-NULL). -/
  devm_iio_device_alloc : σ → Bool × σ
  /-- Result of `devm_iio_device_register`. -/
  devm_iio_device_register : σ → Int × σ

/-- Hardware state together with the trace of calls made so far. -/
structure World (σ : Type) where
  hw : σ
  trace : List Event

/-- Number of bus transactions in a trace. -/
def bus_count (t : List Event) : Nat := (t.filter Event.isBus).length

/-- Number of bus write transactions in a trace. -/
def bus_write_count (t : List Event) : Nat := (t.filter Event.isBusWrite).length

/-- Traced call of `i2c_smbus_read_word`. -/
def call_read_word {σ : Type} (P : Platform σ) (w : World σ) (client reg : Nat) :
    Int × World σ :=
  let r := P.i2c_smbus_read_word w.hw client reg
  (r.1, { hw := r.2, trace := w.trace ++ [Event.smbus_read_word client reg] })

/-- Traced call of `i2c_smbus_read_word_swapped`. -/
def call_read_word_swapped {σ : Type} (P : Platform σ) (w : World σ) (client reg : Nat) :
    Int × World σ :=
  let r := P.i2c_smbus_read_word_swapped w.hw client reg
  (r.1, { hw := r.2, trace := w.trace ++ [Event.smbus_read_word_swapped client reg] })

/-- Traced call of `i2c_smbus_write_word`. -/
def call_write_word {σ : Type} (P : Platform σ) (w : World σ) (client reg : Nat)
    (value : Int) : Int × World σ :=
  let r := P.i2c_smbus_write_word w.hw client reg value
  (r.1, { hw := r.2, trace := w.trace ++ [Event.smbus_write_word client reg value] })

/-- Traced call of `devm_iio_device_alloc`. -/
def call_device_alloc {σ : Type} (P : Platform σ) (w : World σ) : Bool × World σ :=
  let r := P.devm_iio_device_alloc w.hw
  (r.1, { hw := r.2, trace := w.trace ++ [Event.iio_device_alloc] })

/-- Traced call of `devm_iio_device_register`. -/
def call_device_register {σ : Type} (P : Platform σ) (w : World σ) : Int × World σ :=
  let r := P.devm_iio_device_register w.hw
  (r.1, { hw := r.2, trace := w.trace ++ [Event.iio_device_register] })

/-! ## Driver data -/

/-- Driver state `struct lm75_data` (lm75.c lines 20-23). -/
structure lm75_data where
  client : Nat
  calibbias : Int
  deriving DecidableEq, Repr

/-- Channel description `struct iio_chan_spec`, the fields the driver sets. -/
structure iio_chan_spec where
  type : Nat
  info_mask_separate : Nat
  deriving DecidableEq, Repr

/-- Table `lm75_channels` (lm75.c lines 86-92). -/
def lm75_channels : List iio_chan_spec :=
  [{ type := IIO_TEMP,
     info_mask_separate := BIT IIO_CHAN_INFO_RAW |||
       BIT IIO_CHAN_INFO_CALIBBIAS ||| BIT IIO_CHAN_INFO_SCALE }]

/-- Device `struct iio_dev`: the data fields `lm75_probe` sets, with the private
data that `iio_priv` returns.  The `info` field points to the function table
`lm75_info`, that is to `lm75_read_raw` and `lm75_write_raw` below. -/
structure iio_dev where
  name : String
  modes : Nat
  channels : List iio_chan_spec
  num_channels : Nat
  priv : lm75_data
  deriving DecidableEq, Repr

/-! ## lm75_read_raw -/

/-- Outcome of `lm75_read_raw`: the return value, what was stored through
`val` and `val2` (`none` when the pointer was not written), the driver data
and the world afterwards. -/
structure ReadOutcome (σ : Type) where
  ret : Int
  val : Option Int
  val2 : Option Int
  data : lm75_data
  world : World σ

/-- Function `lm75_read_raw` (lm75.c lines 25-63). -/
def lm75_read_raw {σ : Type} (P : Platform σ) (data : lm75_data) (w : World σ)
    (mask : Int) : ReadOutcome σ :=
  if mask = IIO_CHAN_INFO_RAW then
    let r := call_read_word P w data.client LM75_REG_TEMP
    let ret := to_s18 r.1
    if ret < 0 then
      { ret := ret, val := none, val2 := none, data := data, world := r.2 }
    else
      { ret := IIO_VAL_INT, val := some (sign_extend18 ret 8), val2 := none,
        data := data, world := r.2 }
  else if mask = IIO_CHAN_INFO_CALIBBIAS then
    let r := call_read_word P w data.client LM75_REG_TEMP_OFFSET
    let ret := to_s18 r.1
    if ret < 0 then
      { ret := ret, val := none, val2 := none, data := data, world := r.2 }
    else
      { ret := IIO_VAL_INT, val := some (sign_extend16 ret 9), val2 := none,
        data := data, world := r.2 }
  else if mask = IIO_CHAN_INFO_SCALE then
    { ret := IIO_VAL_INT_PLUS_MICRO,
      val := some (Int.tdiv LM75_RESOLUTION_10UC MICRODEGREE_PER_10MILLIDEGREE),
      val2 := some (Int.tmod LM75_RESOLUTION_10UC MICRODEGREE_PER_10MILLIDEGREE * 100),
      data := data, world := w }
  else
    { ret := -EINVAL, val := none, val2 := none, data := data, world := w }

/-! ## lm75_write_raw -/

/-- Outcome of `lm75_write_raw`: the return value, the driver data and the
world afterwards. -/
structure WriteOutcome (σ : Type) where
  ret : Int
  data : lm75_data
  world : World σ

/-- Function `lm75_write_raw` (lm75.c lines 65-84). -/
def lm75_write_raw {σ : Type} (P : Platform σ) (data : lm75_data) (w : World σ)
    (val : Int) (_val2 : Int) (mask : Int) : WriteOutcome σ :=
  if mask = IIO_CHAN_INFO_CALIBBIAS then
    let off := to_s9 (clamp_t val S9_MIN S9_MAX)
    if off = data.calibbias then
      { ret := 0, data := data, world := w }
    else
      let data1 : lm75_data := { data with calibbias := off }
      let r := call_write_word P w data1.client LM75_REG_TEMP_OFFSET off
      { ret := r.1, data := data1, world := r.2 }
  else
    { ret := -EINVAL, data := data, world := w }

/-! ## lm75_identify and lm75_probe -/

/-- Function `lm75_identify` (lm75.c lines 99-111); the `dev_err` message is
not modelled. -/
def lm75_identify {σ : Type} (P : Platform σ) (w : World σ) (client : Nat) :
    Int × World σ :=
  let r := call_read_word_swapped P w client LM75_REG_DEVICE_ID
  let dev_id := r.1
  if dev_id < 0 then (dev_id, r.2)
  else if dev_id ≠ LM75_DEVICE_ID then (-ENODEV, r.2)
  else (0, r.2)

/-- Outcome of `lm75_probe`: the return value, the device as initialised and
handed to `devm_iio_device_register` (`none` when the probe returned before
that), and the world afterwards. -/
structure ProbeOutcome (σ : Type) where
  ret : Int
  indio_dev : Option iio_dev
  world : World σ

/-- Function `lm75_probe` (lm75.c lines 113-142). -/
def lm75_probe {σ : Type} (P : Platform σ) (w : World σ) (client : Nat) :
    ProbeOutcome σ :=
  if P.i2c_check_functionality w.hw client = false then
    { ret := -EOPNOTSUPP, indio_dev := none, world := w }
  else
    let i := lm75_identify P w client
    if i.1 < 0 then
      { ret := i.1, indio_dev := none, world := i.2 }
    else
      let a := call_device_alloc P i.2
      if a.1 = false then
        { ret := -ENOMEM, indio_dev := none, world := a.2 }
      else
        let data : lm75_data := { client := client, calibbias := 0 }
        let indio_dev : iio_dev :=
          { name := "lm75", modes := INDIO_DIRECT_MODE, channels := lm75_channels,
            num_channels := lm75_channels.length, priv := data }
        let g := call_device_register P a.2
        { ret := g.1, indio_dev := some indio_dev, world := g.2 }

/-! ## A register-file bus

A concrete platform on which the definitions above can be evaluated: each
register holds a 16-bit word, a word read returns it, a word write stores the
low 16 bits of the value passed and succeeds. -/

/-- Hardware state of the register-file bus: the word held by each register. -/
structure RegFile where
  regs : Nat → Int

/-- Platform of the register-file bus. -/
def regPlatform : Platform RegFile where
  i2c_check_functionality := fun _ _ => true
  i2c_smbus_read_word := fun h _ reg => (h.regs reg, h)
  i2c_smbus_read_word_swapped := fun h _ reg => (h.regs reg, h)
  i2c_smbus_write_word := fun h _ reg value =>
    (0, { regs := fun r => if r = reg then value % 65536 else h.regs r })
  devm_iio_device_alloc := fun h => (true, h)
  devm_iio_device_register := fun h => (0, h)

/-- Platform whose bus fails every transaction with the given (negative)
errno and leaves the registers as they are. -/
def failPlatform (e : Int) : Platform RegFile where
  i2c_check_functionality := fun _ _ => true
  i2c_smbus_read_word := fun h _ _ => (e, h)
  i2c_smbus_read_word_swapped := fun h _ _ => (e, h)
  i2c_smbus_write_word := fun h _ _ _ => (e, h)
  devm_iio_device_alloc := fun h => (true, h)
  devm_iio_device_register := fun h => (0, h)

/-- World of the register-file bus in which every register holds `word` and no
call has been made yet. -/
def regWorld (word : Int) : World RegFile :=
  { hw := { regs := fun _ => word }, trace := [] }

/-- World left behind by an earlier binding on the register-file bus: the
identity register (like every other one) held 0x7, and the driver wrote
calibration bias 5, so register LM75_REG_TEMP_OFFSET holds 5 as the word last
written to it. -/
def worldAfterEarlierWrite : World RegFile :=
  (lm75_write_raw regPlatform { client := 0, calibbias := 0 } (regWorld 0x7) 5 0
    IIO_CHAN_INFO_CALIBBIAS).world

/-! ## Helper lemmas -/

lemma to_s18_of_range (x : Int) (hlo : -131072 ≤ x) (hhi : x < 131072) : to_s18 x = x := by
  simp only [to_s18, wrap_signed]
  norm_num
  omega

lemma to_s9_of_range (x : Int) (hlo : -256 ≤ x) (hhi : x ≤ 255) : to_s9 x = x := by
  simp only [to_s9, wrap_signed]
  norm_num
  omega

lemma clamp_t_s9_eq (v : Int) : clamp_t v S9_MIN S9_MAX = min (max v (-256)) 255 := by
  simp [clamp_t, S9_MIN, S9_MAX]

lemma clamp_t_s9_range (v : Int) :
    -256 ≤ clamp_t v S9_MIN S9_MAX ∧ clamp_t v S9_MIN S9_MAX ≤ 255 := by
  simp only [clamp_t, S9_MIN, S9_MAX]
  omega

lemma off_eq_clamp (v : Int) : to_s9 (clamp_t v S9_MIN S9_MAX) = min (max v (-256)) 255 := by
  rw [to_s9_of_range _ (clamp_t_s9_range v).1 (clamp_t_s9_range v).2, clamp_t_s9_eq]

lemma sign_extend18_8 (x : Int) (hlo : 0 ≤ x) (hhi : x < 65536) :
    sign_extend18 x 8 =
      if 256 ≤ x / 128 % 512 then x / 128 % 512 - 512 else x / 128 % 512 := by
  have h : x % 65536 = x := by omega
  simp only [sign_extend18]
  norm_num
  rw [h]

lemma sign_extend16_9 (x : Int) :
    sign_extend16 x 9 = if 512 ≤ x % 1024 then x % 1024 - 1024 else x % 1024 := by
  simp only [sign_extend16, sign_extend]
  norm_num

lemma bus_count_append (t u : List Event) : bus_count (t ++ u) = bus_count t + bus_count u := by
  simp [bus_count]

lemma bus_write_count_append (t u : List Event) :
    bus_write_count (t ++ u) = bus_write_count t + bus_write_count u := by
  simp [bus_write_count]

/-! ## C1: Read(RAW) -/

/-- C1: for every 16-bit raw word returned by a successful bus read of the
TEMPERATURE register, `lm75_read_raw` with mask RAW succeeds (returns
IIO_VAL_INT) and yields the 9-bit two's-complement value held in bits [15:7]
of the word, that is the integer in [-256, 255] congruent to word / 128 modulo
512; a word whose bits [15:7] are 101000000 yields -192 and a word whose bits
[15:7] are 001100100 yields 100.  The only call made is one word read of
register LM75_REG_TEMP and the driver data is unchanged. -/
theorem read_raw_decodes_bits_15_7 {σ : Type} (P : Platform σ) (data : lm75_data)
    (w : World σ) (word : Nat) (hword : word < 65536)
    (hbus : (P.i2c_smbus_read_word w.hw data.client LM75_REG_TEMP).1 = (word : Int)) :
    (lm75_read_raw P data w IIO_CHAN_INFO_RAW).ret = IIO_VAL_INT ∧
    (∃ v : Int, (lm75_read_raw P data w IIO_CHAN_INFO_RAW).val = some v ∧
      -256 ≤ v ∧ v ≤ 255 ∧ (v - ((word / 128 : Nat) : Int)) % 512 = 0 ∧
      (∀ u : Int, -256 ≤ u → u ≤ 255 → (u - ((word / 128 : Nat) : Int)) % 512 = 0 →
        u = v) ∧
      (word / 128 % 512 = 0b101000000 → v = -192) ∧
      (word / 128 % 512 = 0b001100100 → v = 100)) ∧
    (lm75_read_raw P data w IIO_CHAN_INFO_RAW).val2 = none ∧
    (lm75_read_raw P data w IIO_CHAN_INFO_RAW).data = data ∧
    (lm75_read_raw P data w IIO_CHAN_INFO_RAW).world.trace =
      w.trace ++ [Event.smbus_read_word data.client LM75_REG_TEMP] := by
  have hs : to_s18 (word : Int) = (word : Int) := to_s18_of_range _ (by omega) (by omega)
  have hnn : ¬ ((word : Int) < 0) := by omega
  have hd : sign_extend18 (word : Int) 8 =
      if 256 ≤ (word : Int) / 128 % 512 then (word : Int) / 128 % 512 - 512
      else (word : Int) / 128 % 512 :=
    sign_extend18_8 _ (by omega) (by omega)
  simp only [lm75_read_raw, call_read_word, hbus, hs, hnn, if_true, if_false, hd]
  refine ⟨trivial, ⟨_, rfl, ?_, ?_, ?_, ?_, ?_, ?_⟩, trivial, trivial, trivial⟩
  · split <;> omega
  · split <;> omega
  · split <;> omega
  · intro u h1 h2 h3
    split <;> omega
  · intro h; split <;> omega
  · intro h; split <;> omega

/-- Witness of C1: register 0 of the register-file bus holds 0xA000, whose bits
[15:7] are 101000000; the read returns -192. -/
theorem read_raw_decodes_bits_15_7_witness :
    (0xA000 : Nat) < 65536 ∧ 0xA000 / 128 % 512 = 0b101000000 ∧
    (lm75_read_raw regPlatform { client := 0, calibbias := 0 } (regWorld 0xA000)
      IIO_CHAN_INFO_RAW).ret = IIO_VAL_INT ∧
    (lm75_read_raw regPlatform { client := 0, calibbias := 0 } (regWorld 0xA000)
      IIO_CHAN_INFO_RAW).val = some (-192) :=
  ⟨by decide, by decide,
   (read_raw_decodes_bits_15_7 regPlatform { client := 0, calibbias := 0 }
      (regWorld 0xA000) 0xA000 (by decide) (by decide)).1,
   by
    obtain ⟨v, hv, _, _, _, _, h192, _⟩ :=
      (read_raw_decodes_bits_15_7 regPlatform { client := 0, calibbias := 0 }
        (regWorld 0xA000) 0xA000 (by decide) (by decide)).2.1
    rw [hv, h192 (by decide)]⟩

/-! ## C2, C3, C4, C10: Write(CALIBRATION_BIAS) -/

/-- C2: for every value v and every driver state whose cached bias differs
from clamp(v) = min(max(v, -256), 255), `lm75_write_raw` with mask CALIBBIAS
stores clamp(v) in the cache and issues exactly one call, a word write of
clamp(v) to register LM75_REG_TEMP_OFFSET, whose result it returns; clamp(v)
lies in [-256, 255], equals v when v is in that range, is 255 for v = 1000 and
-256 for v = -1000. -/
theorem write_calibbias_stores_and_sends_clamp {σ : Type} (P : Platform σ)
    (data : lm75_data) (w : World σ) (v v2 : Int)
    (hne : min (max v (-256)) 255 ≠ data.calibbias) :
    (lm75_write_raw P data w v v2 IIO_CHAN_INFO_CALIBBIAS).data =
      { client := data.client, calibbias := min (max v (-256)) 255 } ∧
    (lm75_write_raw P data w v v2 IIO_CHAN_INFO_CALIBBIAS).world.trace =
      w.trace ++ [Event.smbus_write_word data.client LM75_REG_TEMP_OFFSET
        (min (max v (-256)) 255)] ∧
    (lm75_write_raw P data w v v2 IIO_CHAN_INFO_CALIBBIAS).world.hw =
      (P.i2c_smbus_write_word w.hw data.client LM75_REG_TEMP_OFFSET
        (min (max v (-256)) 255)).2 ∧
    (lm75_write_raw P data w v v2 IIO_CHAN_INFO_CALIBBIAS).ret =
      (P.i2c_smbus_write_word w.hw data.client LM75_REG_TEMP_OFFSET
        (min (max v (-256)) 255)).1 ∧
    -256 ≤ min (max v (-256)) 255 ∧ min (max v (-256)) 255 ≤ 255 ∧
    (-256 ≤ v → v ≤ 255 → min (max v (-256)) 255 = v) ∧
    (v = 1000 → min (max v (-256)) 255 = 255) ∧
    (v = -1000 → min (max v (-256)) 255 = -256) := by
  simp only [lm75_write_raw, call_write_word, off_eq_clamp, hne, if_true, if_false]
  refine ⟨trivial, trivial, trivial, trivial, ?_, ?_, ?_, ?_, ?_⟩ <;> omega

/-- Witness of C2: the freshly bound state (cached bias 0) and v = 1000 on the
register-file bus: the cache becomes 255 and 255 is written to register 3. -/
theorem write_calibbias_stores_and_sends_clamp_witness :
    (lm75_write_raw regPlatform { client := 0, calibbias := 0 } (regWorld 0) 1000 0
      IIO_CHAN_INFO_CALIBBIAS).data = { client := 0, calibbias := 255 } ∧
    (lm75_write_raw regPlatform { client := 0, calibbias := 0 } (regWorld 0) 1000 0
      IIO_CHAN_INFO_CALIBBIAS).world.trace =
      [Event.smbus_write_word 0 LM75_REG_TEMP_OFFSET 255] :=
  ⟨(write_calibbias_stores_and_sends_clamp regPlatform { client := 0, calibbias := 0 }
      (regWorld 0) 1000 0 (by decide)).1,
   (write_calibbias_stores_and_sends_clamp regPlatform { client := 0, calibbias := 0 }
      (regWorld 0) 1000 0 (by decide)).2.1⟩

/-- C3: when clamp(v) equals the cached bias, `lm75_write_raw` with mask
CALIBBIAS returns 0, makes no call (the world, trace included, is unchanged,
so zero bus transactions) and leaves the driver data unchanged; and for any
mask, a write that issues a bus transaction has mask CALIBBIAS and a clamped
value different from the cached bias. -/
theorem write_calibbias_suppressed_when_cached {σ : Type} (P : Platform σ)
    (data : lm75_data) (w : World σ) (v v2 : Int) (mask : Int) :
    (min (max v (-256)) 255 = data.calibbias →
      (lm75_write_raw P data w v v2 IIO_CHAN_INFO_CALIBBIAS).ret = 0 ∧
      (lm75_write_raw P data w v v2 IIO_CHAN_INFO_CALIBBIAS).data = data ∧
      (lm75_write_raw P data w v v2 IIO_CHAN_INFO_CALIBBIAS).world = w ∧
      bus_count (lm75_write_raw P data w v v2 IIO_CHAN_INFO_CALIBBIAS).world.trace =
        bus_count w.trace) ∧
    (bus_count (lm75_write_raw P data w v v2 mask).world.trace ≠ bus_count w.trace →
      mask = IIO_CHAN_INFO_CALIBBIAS ∧ min (max v (-256)) 255 ≠ data.calibbias) := by
  constructor
  · intro h
    simp [lm75_write_raw, off_eq_clamp, h]
  · intro h
    by_cases hm : mask = IIO_CHAN_INFO_CALIBBIAS
    · refine ⟨hm, fun hc => h ?_⟩
      simp [lm75_write_raw, off_eq_clamp, hm, hc]
    · exact absurd (by simp [lm75_write_raw, hm]) h

/-- Witness of C3: the freshly bound state (cached bias 0) and v = 0. -/
theorem write_calibbias_suppressed_when_cached_witness :
    (lm75_write_raw regPlatform { client := 0, calibbias := 0 } (regWorld 7) 0 0
      IIO_CHAN_INFO_CALIBBIAS).ret = 0 ∧
    (lm75_write_raw regPlatform { client := 0, calibbias := 0 } (regWorld 7) 0 0
      IIO_CHAN_INFO_CALIBBIAS).data = { client := 0, calibbias := 0 } ∧
    (lm75_write_raw regPlatform { client := 0, calibbias := 0 } (regWorld 7) 0 0
      IIO_CHAN_INFO_CALIBBIAS).world = regWorld 7 ∧
    bus_count (lm75_write_raw regPlatform { client := 0, calibbias := 0 } (regWorld 7) 0 0
      IIO_CHAN_INFO_CALIBBIAS).world.trace = bus_count (regWorld 7).trace :=
  (write_calibbias_suppressed_when_cached regPlatform { client := 0, calibbias := 0 }
    (regWorld 7) 0 0 IIO_CHAN_INFO_CALIBBIAS).1 (by decide)

/-- C4 (as stated, refuted): on the state `lm75_probe` creates (cached bias 0),
writing 0 and then 0 again issues no bus write transaction at all, not one. -/
theorem two_writes_one_transaction_counterexample :
    min (max (0 : Int) (-256)) 255 = min (max (0 : Int) (-256)) 255 ∧
    bus_write_count
      (lm75_write_raw regPlatform
        (lm75_write_raw regPlatform { client := 0, calibbias := 0 } (regWorld 5) 0 0
          IIO_CHAN_INFO_CALIBBIAS).data
        (lm75_write_raw regPlatform { client := 0, calibbias := 0 } (regWorld 5) 0 0
          IIO_CHAN_INFO_CALIBBIAS).world
        0 0 IIO_CHAN_INFO_CALIBBIAS).world.trace = 0 ∧
    bus_write_count
      (lm75_write_raw regPlatform
        (lm75_write_raw regPlatform { client := 0, calibbias := 0 } (regWorld 5) 0 0
          IIO_CHAN_INFO_CALIBBIAS).data
        (lm75_write_raw regPlatform { client := 0, calibbias := 0 } (regWorld 5) 0 0
          IIO_CHAN_INFO_CALIBBIAS).world
        0 0 IIO_CHAN_INFO_CALIBBIAS).world.trace ≠ bus_write_count (regWorld 5).trace + 1 := by
  decide

/-- C4 (amended): for values v1, v2 with clamp(v1) = clamp(v2), writing v1 and
then v2 with mask CALIBBIAS issues exactly one bus write transaction in total
when the cached bias differs from clamp(v1), and none when the cached bias
already equals clamp(v1); the second write never reaches the bus. -/
theorem two_writes_same_clamp_transactions {σ : Type} (P : Platform σ)
    (data : lm75_data) (w : World σ) (v1 v2 a b : Int)
    (hc : min (max v1 (-256)) 255 = min (max v2 (-256)) 255) :
    bus_write_count
      (lm75_write_raw P (lm75_write_raw P data w v1 a IIO_CHAN_INFO_CALIBBIAS).data
        (lm75_write_raw P data w v1 a IIO_CHAN_INFO_CALIBBIAS).world
        v2 b IIO_CHAN_INFO_CALIBBIAS).world.trace =
      bus_write_count w.trace +
        (if min (max v1 (-256)) 255 = data.calibbias then 0 else 1) ∧
    (lm75_write_raw P (lm75_write_raw P data w v1 a IIO_CHAN_INFO_CALIBBIAS).data
        (lm75_write_raw P data w v1 a IIO_CHAN_INFO_CALIBBIAS).world
        v2 b IIO_CHAN_INFO_CALIBBIAS).world =
      (lm75_write_raw P data w v1 a IIO_CHAN_INFO_CALIBBIAS).world := by
  by_cases h : min (max v1 (-256)) 255 = data.calibbias
  · have h2 : min (max v2 (-256)) 255 = data.calibbias := hc ▸ h
    simp [lm75_write_raw, off_eq_clamp, h, h2]
  · simp [lm75_write_raw, call_write_word, off_eq_clamp, h, hc.symm,
      bus_write_count_append, bus_write_count, Event.isBusWrite]

/-- Witness of C4 (amended): cached bias 0, then writing 1000 and 2000, both of
which clamp to 255: one bus write. -/
theorem two_writes_same_clamp_transactions_witness :
    bus_write_count
      (lm75_write_raw regPlatform
        (lm75_write_raw regPlatform { client := 0, calibbias := 0 } (regWorld 5) 1000 0
          IIO_CHAN_INFO_CALIBBIAS).data
        (lm75_write_raw regPlatform { client := 0, calibbias := 0 } (regWorld 5) 1000 0
          IIO_CHAN_INFO_CALIBBIAS).world
        2000 0 IIO_CHAN_INFO_CALIBBIAS).world.trace =
      bus_write_count (regWorld 5).trace +
        (if min (max (1000 : Int) (-256)) 255 = (0 : Int) then 0 else 1) :=
  (two_writes_same_clamp_transactions regPlatform { client := 0, calibbias := 0 }
    (regWorld 5) 1000 2000 0 0 (by decide)).1

/-- C10: when clamp(v) differs from the cached bias and the bus word write
fails with a negative result e, `lm75_write_raw` with mask CALIBBIAS returns e
unchanged and still leaves the cached bias equal to clamp(v); an immediately
following write of v returns 0 and makes no call at all (world and driver data
stay as the failed write left them). -/
theorem failed_write_keeps_cache {σ : Type} (P : Platform σ) (data : lm75_data)
    (w : World σ) (v a b e : Int)
    (hne : min (max v (-256)) 255 ≠ data.calibbias)
    (hbus : (P.i2c_smbus_write_word w.hw data.client LM75_REG_TEMP_OFFSET
      (min (max v (-256)) 255)).1 = e)
    (_hfail : e < 0) :
    (lm75_write_raw P data w v a IIO_CHAN_INFO_CALIBBIAS).ret = e ∧
    (lm75_write_raw P data w v a IIO_CHAN_INFO_CALIBBIAS).data.calibbias =
      min (max v (-256)) 255 ∧
    (lm75_write_raw P (lm75_write_raw P data w v a IIO_CHAN_INFO_CALIBBIAS).data
      (lm75_write_raw P data w v a IIO_CHAN_INFO_CALIBBIAS).world
      v b IIO_CHAN_INFO_CALIBBIAS).ret = 0 ∧
    (lm75_write_raw P (lm75_write_raw P data w v a IIO_CHAN_INFO_CALIBBIAS).data
      (lm75_write_raw P data w v a IIO_CHAN_INFO_CALIBBIAS).world
      v b IIO_CHAN_INFO_CALIBBIAS).world =
      (lm75_write_raw P data w v a IIO_CHAN_INFO_CALIBBIAS).world ∧
    (lm75_write_raw P (lm75_write_raw P data w v a IIO_CHAN_INFO_CALIBBIAS).data
      (lm75_write_raw P data w v a IIO_CHAN_INFO_CALIBBIAS).world
      v b IIO_CHAN_INFO_CALIBBIAS).data =
      (lm75_write_raw P data w v a IIO_CHAN_INFO_CALIBBIAS).data := by
  simp [lm75_write_raw, call_write_word, off_eq_clamp, hne, hbus]

/-- Witness of C10: cached bias 0, v = 40, on a bus failing every transaction
with -5 and leaving its registers (all holding 9) untouched: the second write
reports success while the calibration register still holds 9. -/
theorem failed_write_keeps_cache_witness :
    (lm75_write_raw (failPlatform (-5)) { client := 0, calibbias := 0 } (regWorld 9) 40 0
      IIO_CHAN_INFO_CALIBBIAS).ret = -5 ∧
    (lm75_write_raw (failPlatform (-5)) { client := 0, calibbias := 0 } (regWorld 9) 40 0
      IIO_CHAN_INFO_CALIBBIAS).data.calibbias = min (max (40 : Int) (-256)) 255 ∧
    (lm75_write_raw (failPlatform (-5))
      (lm75_write_raw (failPlatform (-5)) { client := 0, calibbias := 0 } (regWorld 9) 40 0
        IIO_CHAN_INFO_CALIBBIAS).data
      (lm75_write_raw (failPlatform (-5)) { client := 0, calibbias := 0 } (regWorld 9) 40 0
        IIO_CHAN_INFO_CALIBBIAS).world
      40 0 IIO_CHAN_INFO_CALIBBIAS).ret = 0 ∧
    (lm75_write_raw (failPlatform (-5))
      (lm75_write_raw (failPlatform (-5)) { client := 0, calibbias := 0 } (regWorld 9) 40 0
        IIO_CHAN_INFO_CALIBBIAS).data
      (lm75_write_raw (failPlatform (-5)) { client := 0, calibbias := 0 } (regWorld 9) 40 0
        IIO_CHAN_INFO_CALIBBIAS).world
      40 0 IIO_CHAN_INFO_CALIBBIAS).world.hw.regs LM75_REG_TEMP_OFFSET = 9 :=
  have h := failed_write_keeps_cache (failPlatform (-5)) { client := 0, calibbias := 0 }
    (regWorld 9) 40 0 0 (-5) (by decide) (by decide) (by decide)
  ⟨h.1, h.2.1, h.2.2.1, by decide⟩

/-! ## C5, C9: Read(CALIBRATION_BIAS) -/

/-- C9: `lm75_read_raw` with mask CALIBBIAS issues one word read of register
LM75_REG_TEMP_OFFSET.  A negative result (one an `s18` variable holds) is
returned unchanged and nothing is stored through `val`; a 16-bit word r makes
the read succeed with the unique integer in [-512, 511] congruent to r modulo
1024.  The driver data is returned unchanged, and the outcome is the same
whatever the cached bias is. -/
theorem read_calibbias_decodes_bus_word {σ : Type} (P : Platform σ) (data : lm75_data)
    (w : World σ) (r : Int)
    (hbus : (P.i2c_smbus_read_word w.hw data.client LM75_REG_TEMP_OFFSET).1 = r) :
    (-131072 ≤ r → r < 0 →
      (lm75_read_raw P data w IIO_CHAN_INFO_CALIBBIAS).ret = r ∧
      (lm75_read_raw P data w IIO_CHAN_INFO_CALIBBIAS).val = none) ∧
    (0 ≤ r → r < 65536 →
      (lm75_read_raw P data w IIO_CHAN_INFO_CALIBBIAS).ret = IIO_VAL_INT ∧
      ∃ v : Int, (lm75_read_raw P data w IIO_CHAN_INFO_CALIBBIAS).val = some v ∧
        -512 ≤ v ∧ v ≤ 511 ∧ (v - r) % 1024 = 0 ∧
        ∀ u : Int, -512 ≤ u → u ≤ 511 → (u - r) % 1024 = 0 → u = v) ∧
    (lm75_read_raw P data w IIO_CHAN_INFO_CALIBBIAS).data = data ∧
    (lm75_read_raw P data w IIO_CHAN_INFO_CALIBBIAS).world.trace =
      w.trace ++ [Event.smbus_read_word data.client LM75_REG_TEMP_OFFSET] ∧
    (∀ c : Int,
      (lm75_read_raw P { data with calibbias := c } w IIO_CHAN_INFO_CALIBBIAS).ret =
        (lm75_read_raw P data w IIO_CHAN_INFO_CALIBBIAS).ret ∧
      (lm75_read_raw P { data with calibbias := c } w IIO_CHAN_INFO_CALIBBIAS).val =
        (lm75_read_raw P data w IIO_CHAN_INFO_CALIBBIAS).val ∧
      (lm75_read_raw P { data with calibbias := c } w IIO_CHAN_INFO_CALIBBIAS).world =
        (lm75_read_raw P data w IIO_CHAN_INFO_CALIBBIAS).world ∧
      (lm75_read_raw P { data with calibbias := c } w
        IIO_CHAN_INFO_CALIBBIAS).data.calibbias = c) := by
  have hk : ¬ (IIO_CHAN_INFO_CALIBBIAS = IIO_CHAN_INFO_RAW) := by decide
  refine ⟨?_, ?_, ?_, ?_, ?_⟩
  · intro hlo hneg
    have hs : to_s18 r = r := to_s18_of_range r hlo (by omega)
    simp [lm75_read_raw, call_read_word, hk, hbus, hs, hneg]
  · intro hlo hhi
    have hs : to_s18 r = r := to_s18_of_range r (by omega) (by omega)
    have hnn : ¬ (r < 0) := by omega
    simp only [lm75_read_raw, call_read_word, hk, hbus, hs, hnn, if_true, if_false,
      sign_extend16_9]
    refine ⟨trivial, _, rfl, ?_, ?_, ?_, ?_⟩
    · split <;> omega
    · split <;> omega
    · split <;> omega
    · intro u h1 h2 h3
      split <;> omega
  · simp only [lm75_read_raw, hk, if_true, if_false]
    split <;> rfl
  · simp only [lm75_read_raw, call_read_word, hk, if_true, if_false]
    split <;> rfl
  · intro c
    simp only [lm75_read_raw, call_read_word, hk, if_true, if_false]
    split <;> exact ⟨rfl, rfl, rfl, rfl⟩

/-- Witness of C9: the bus fails with -5 (first part), and register 3 holds the
word 0xFFFF (second part, decoded to -1). -/
theorem read_calibbias_decodes_bus_word_witness :
    ((lm75_read_raw (failPlatform (-5)) { client := 0, calibbias := 3 } (regWorld 0)
        IIO_CHAN_INFO_CALIBBIAS).ret = -5 ∧
      (lm75_read_raw (failPlatform (-5)) { client := 0, calibbias := 3 } (regWorld 0)
        IIO_CHAN_INFO_CALIBBIAS).val = none) ∧
    (lm75_read_raw regPlatform { client := 0, calibbias := 3 } (regWorld 0xFFFF)
        IIO_CHAN_INFO_CALIBBIAS).ret = IIO_VAL_INT :=
  ⟨(read_calibbias_decodes_bus_word (failPlatform (-5)) { client := 0, calibbias := 3 }
      (regWorld 0) (-5) (by decide)).1 (by decide) (by decide),
   ((read_calibbias_decodes_bus_word regPlatform { client := 0, calibbias := 3 }
      (regWorld 0xFFFF) 0xFFFF (by decide)).2.1 (by decide) (by decide)).1⟩

lemma regPlatform_reads_back (h : RegFile) (c : Nat) (v : Int) :
    (regPlatform.i2c_smbus_read_word
      (regPlatform.i2c_smbus_write_word h c LM75_REG_TEMP_OFFSET v).2 c
      LM75_REG_TEMP_OFFSET).1 = v % 65536 := by
  simp [regPlatform]

/-- C5 (as stated, refuted): the register-file bus returns on a word read the
16-bit word last written.  An earlier binding wrote bias 5, so the calibration
register holds 5; the device is bound again and `lm75_probe` succeeds with
cached bias 0.  Writing X = 0 is then suppressed, and the read that follows
returns 5, not 0. -/
theorem write_then_read_counterexample :
    (-256 : Int) ≤ 0 ∧ (0 : Int) ≤ 255 ∧
    worldAfterEarlierWrite.trace = [Event.smbus_write_word 0 LM75_REG_TEMP_OFFSET 5] ∧
    (lm75_probe regPlatform worldAfterEarlierWrite 0).ret = 0 ∧
    (lm75_probe regPlatform worldAfterEarlierWrite 0).indio_dev.map iio_dev.priv =
      some { client := 0, calibbias := 0 } ∧
    (lm75_read_raw regPlatform
      (lm75_write_raw regPlatform { client := 0, calibbias := 0 }
        (lm75_probe regPlatform worldAfterEarlierWrite 0).world 0 0
        IIO_CHAN_INFO_CALIBBIAS).data
      (lm75_write_raw regPlatform { client := 0, calibbias := 0 }
        (lm75_probe regPlatform worldAfterEarlierWrite 0).world 0 0
        IIO_CHAN_INFO_CALIBBIAS).world
      IIO_CHAN_INFO_CALIBBIAS).val = some 5 ∧
    (lm75_read_raw regPlatform
      (lm75_write_raw regPlatform { client := 0, calibbias := 0 }
        (lm75_probe regPlatform worldAfterEarlierWrite 0).world 0 0
        IIO_CHAN_INFO_CALIBBIAS).data
      (lm75_write_raw regPlatform { client := 0, calibbias := 0 }
        (lm75_probe regPlatform worldAfterEarlierWrite 0).world 0 0
        IIO_CHAN_INFO_CALIBBIAS).world
      IIO_CHAN_INFO_CALIBBIAS).val ≠ some 0 := by
  decide

/-- C5 (amended): over a bus whose CALIBRATION_OFFSET register returns on a
word read the 16-bit word last written to it, for every X in [-256, 255] and
every driver state whose cached bias differs from X (so that the write reaches
the bus) or whose register already reads back as X, writing X with mask
CALIBBIAS and then reading with mask CALIBBIAS succeeds and returns X. -/
theorem write_then_read_returns_written {σ : Type} (P : Platform σ) (data : lm75_data)
    (w : World σ) (X a : Int)
    (hecho : ∀ (h : σ) (c : Nat) (v : Int),
      (P.i2c_smbus_read_word (P.i2c_smbus_write_word h c LM75_REG_TEMP_OFFSET v).2 c
        LM75_REG_TEMP_OFFSET).1 = v % 65536)
    (hlo : -256 ≤ X) (hhi : X ≤ 255)
    (hreach : X ≠ data.calibbias ∨
      ((lm75_read_raw P data w IIO_CHAN_INFO_CALIBBIAS).ret = IIO_VAL_INT ∧
       (lm75_read_raw P data w IIO_CHAN_INFO_CALIBBIAS).val = some X)) :
    (lm75_read_raw P (lm75_write_raw P data w X a IIO_CHAN_INFO_CALIBBIAS).data
      (lm75_write_raw P data w X a IIO_CHAN_INFO_CALIBBIAS).world
      IIO_CHAN_INFO_CALIBBIAS).ret = IIO_VAL_INT ∧
    (lm75_read_raw P (lm75_write_raw P data w X a IIO_CHAN_INFO_CALIBBIAS).data
      (lm75_write_raw P data w X a IIO_CHAN_INFO_CALIBBIAS).world
      IIO_CHAN_INFO_CALIBBIAS).val = some X := by
  have hX : min (max X (-256)) 255 = X := by omega
  have hk : ¬ (IIO_CHAN_INFO_CALIBBIAS = IIO_CHAN_INFO_RAW) := by decide
  by_cases hc : X = data.calibbias
  · rcases hreach with h | h
    · exact absurd hc h
    · have hw : lm75_write_raw P data w X a IIO_CHAN_INFO_CALIBBIAS =
          { ret := 0, data := data, world := w } := by
        subst hc
        simp [lm75_write_raw, off_eq_clamp, hX]
      rw [hw]
      exact h
  · have hs : to_s18 (X % 65536) = X % 65536 := to_s18_of_range _ (by omega) (by omega)
    have hnn : ¬ (X % 65536 < 0) := by omega
    simp only [lm75_write_raw, lm75_read_raw, call_write_word, call_read_word,
      off_eq_clamp, hX, hc, hk, hecho, hs, hnn, if_true, if_false, sign_extend16_9]
    refine ⟨trivial, ?_⟩
    congr 1
    split <;> omega

/-- Witness of C5 (amended): cached bias 0, register holding 5, X = -3 on the
register-file bus. -/
theorem write_then_read_returns_written_witness :
    (lm75_read_raw regPlatform
      (lm75_write_raw regPlatform { client := 0, calibbias := 0 } (regWorld 5) (-3) 0
        IIO_CHAN_INFO_CALIBBIAS).data
      (lm75_write_raw regPlatform { client := 0, calibbias := 0 } (regWorld 5) (-3) 0
        IIO_CHAN_INFO_CALIBBIAS).world
      IIO_CHAN_INFO_CALIBBIAS).val = some (-3) :=
  (write_then_read_returns_written regPlatform { client := 0, calibbias := 0 }
    (regWorld 5) (-3) 0 regPlatform_reads_back (by decide) (by decide)
    (Or.inl (by decide))).2

/-! ## C6, C8: kinds without bus access -/

/-- C6: `lm75_read_raw` with a mask other than RAW, CALIBBIAS and SCALE returns
-EINVAL, and `lm75_write_raw` with a mask other than CALIBBIAS (RAW and SCALE
included) returns -EINVAL for every value; in both cases no call is made (the
world, trace included, is unchanged) and the driver data is unchanged. -/
theorem unknown_kind_is_invalid_request {σ : Type} (P : Platform σ) (data : lm75_data)
    (w : World σ) (mask v v2 : Int) :
    (mask ≠ IIO_CHAN_INFO_RAW → mask ≠ IIO_CHAN_INFO_CALIBBIAS →
      mask ≠ IIO_CHAN_INFO_SCALE →
      (lm75_read_raw P data w mask).ret = -EINVAL ∧
      (lm75_read_raw P data w mask).val = none ∧
      (lm75_read_raw P data w mask).val2 = none ∧
      (lm75_read_raw P data w mask).data = data ∧
      (lm75_read_raw P data w mask).world = w ∧
      bus_count (lm75_read_raw P data w mask).world.trace = bus_count w.trace) ∧
    (mask ≠ IIO_CHAN_INFO_CALIBBIAS →
      (lm75_write_raw P data w v v2 mask).ret = -EINVAL ∧
      (lm75_write_raw P data w v v2 mask).data = data ∧
      (lm75_write_raw P data w v v2 mask).world = w ∧
      bus_count (lm75_write_raw P data w v v2 mask).world.trace = bus_count w.trace) := by
  constructor
  · intro h1 h2 h3
    simp [lm75_read_raw, h1, h2, h3]
  · intro h
    simp [lm75_write_raw, h]

/-- Witness of C6: reading with mask 3 (neither RAW, CALIBBIAS nor SCALE) and
writing with mask RAW. -/
theorem unknown_kind_is_invalid_request_witness :
    (lm75_read_raw regPlatform { client := 0, calibbias := 0 } (regWorld 5) 3).ret =
      -EINVAL ∧
    (lm75_write_raw regPlatform { client := 0, calibbias := 0 } (regWorld 5) 77 0
      IIO_CHAN_INFO_RAW).ret = -EINVAL :=
  ⟨((unknown_kind_is_invalid_request regPlatform { client := 0, calibbias := 0 }
      (regWorld 5) 3 77 0).1 (by decide) (by decide) (by decide)).1,
   ((unknown_kind_is_invalid_request regPlatform { client := 0, calibbias := 0 }
      (regWorld 5) IIO_CHAN_INFO_RAW 77 0).2 (by decide)).1⟩

/-- C8: `lm75_read_raw` with mask SCALE always succeeds with
IIO_VAL_INT_PLUS_MICRO, makes no call, leaves driver data and world unchanged,
and stores (RESOLUTION / 10000, (RESOLUTION % 10000) * 100) = (0, 12500), where
RESOLUTION = 125. -/
theorem read_scale_is_constant {σ : Type} (P : Platform σ) (data : lm75_data)
    (w : World σ) :
    LM75_RESOLUTION_10UC = 125 ∧
    (lm75_read_raw P data w IIO_CHAN_INFO_SCALE).ret = IIO_VAL_INT_PLUS_MICRO ∧
    (lm75_read_raw P data w IIO_CHAN_INFO_SCALE).val =
      some (Int.tdiv LM75_RESOLUTION_10UC 10000) ∧
    (lm75_read_raw P data w IIO_CHAN_INFO_SCALE).val2 =
      some (Int.tmod LM75_RESOLUTION_10UC 10000 * 100) ∧
    (lm75_read_raw P data w IIO_CHAN_INFO_SCALE).val = some 0 ∧
    (lm75_read_raw P data w IIO_CHAN_INFO_SCALE).val2 = some 12500 ∧
    (lm75_read_raw P data w IIO_CHAN_INFO_SCALE).data = data ∧
    (lm75_read_raw P data w IIO_CHAN_INFO_SCALE).world = w ∧
    bus_count (lm75_read_raw P data w IIO_CHAN_INFO_SCALE).world.trace =
      bus_count w.trace := by
  have h1 : ¬ (IIO_CHAN_INFO_SCALE = IIO_CHAN_INFO_RAW) := by decide
  have h2 : ¬ (IIO_CHAN_INFO_SCALE = IIO_CHAN_INFO_CALIBBIAS) := by decide
  simp only [lm75_read_raw, h1, h2, if_true, if_false]
  refine ⟨rfl, trivial, ?_, ?_, ?_, ?_, trivial, trivial, trivial⟩ <;> decide

/-! ## C7: identification and binding -/

/-- C7: on a bus that supports word transactions, let v be the result of the
byte-swapped word read of the DEVICE_IDENTITY register.  If the read succeeds
(v is not negative) with v other than 0x7, `lm75_probe` returns -ENODEV having
made that one bus read only: no device is allocated or registered.  If v = 0x7,
`lm75_identify` returns 0 and, when allocation succeeds, `lm75_probe` returns
the result of the framework registration, so 0 when registration succeeds, for
a device whose driver data has calibbias = 0.  If the read fails (v negative),
`lm75_probe` returns v unchanged, again without allocating or registering. -/
theorem probe_identifies_device {σ : Type} (P : Platform σ) (w : World σ)
    (client : Nat) (v : Int)
    (hfunc : P.i2c_check_functionality w.hw client = true)
    (hid : (P.i2c_smbus_read_word_swapped w.hw client LM75_REG_DEVICE_ID).1 = v) :
    (0 ≤ v → v ≠ 0x7 →
      (lm75_probe P w client).ret = -ENODEV ∧
      (lm75_probe P w client).indio_dev = none ∧
      (lm75_probe P w client).world.trace =
        w.trace ++ [Event.smbus_read_word_swapped client LM75_REG_DEVICE_ID]) ∧
    (v = 0x7 →
      (lm75_identify P w client).1 = 0 ∧
      ((P.devm_iio_device_alloc
          (P.i2c_smbus_read_word_swapped w.hw client LM75_REG_DEVICE_ID).2).1 = true →
        (lm75_probe P w client).ret =
          (P.devm_iio_device_register
            (P.devm_iio_device_alloc
              (P.i2c_smbus_read_word_swapped w.hw client LM75_REG_DEVICE_ID).2).2).1 ∧
        ((P.devm_iio_device_register
            (P.devm_iio_device_alloc
              (P.i2c_smbus_read_word_swapped w.hw client LM75_REG_DEVICE_ID).2).2).1 = 0 →
          (lm75_probe P w client).ret = 0) ∧
        (∃ dev : iio_dev, (lm75_probe P w client).indio_dev = some dev ∧
          dev.priv.calibbias = 0 ∧ dev.priv.client = client) ∧
        (lm75_probe P w client).world.trace =
          w.trace ++ [Event.smbus_read_word_swapped client LM75_REG_DEVICE_ID,
            Event.iio_device_alloc, Event.iio_device_register])) ∧
    (v < 0 →
      (lm75_probe P w client).ret = v ∧
      (lm75_probe P w client).indio_dev = none ∧
      (lm75_probe P w client).world.trace =
        w.trace ++ [Event.smbus_read_word_swapped client LM75_REG_DEVICE_ID]) := by
  refine ⟨?_, ?_, ?_⟩
  · intro h0 h7
    have hnn : ¬ (v < 0) := by omega
    have h7' : ¬ (v = LM75_DEVICE_ID) := h7
    have hneg : -ENODEV < 0 := by decide
    simp [lm75_probe, lm75_identify, call_read_word_swapped, hfunc, hid, hnn, h7', hneg]
  · intro h7
    have hid7 : (P.i2c_smbus_read_word_swapped w.hw client LM75_REG_DEVICE_ID).1 = 7 := by
      rw [hid, h7]
    have hi : lm75_identify P w client =
        (0, { hw := (P.i2c_smbus_read_word_swapped w.hw client LM75_REG_DEVICE_ID).2,
              trace := w.trace ++
                [Event.smbus_read_word_swapped client LM75_REG_DEVICE_ID] }) := by
      simp [lm75_identify, call_read_word_swapped, hid7, LM75_DEVICE_ID]
    refine ⟨by rw [hi], ?_⟩
    intro halloc
    have hret : (lm75_probe P w client).ret =
        (P.devm_iio_device_register
          (P.devm_iio_device_alloc
            (P.i2c_smbus_read_word_swapped w.hw client LM75_REG_DEVICE_ID).2).2).1 := by
      simp [lm75_probe, hi, call_device_alloc, call_device_register, hfunc, halloc]
    refine ⟨hret, fun h => hret.trans h, ?_, ?_⟩
    · simp [lm75_probe, hi, call_device_alloc, call_device_register, hfunc, halloc]
    · simp [lm75_probe, hi, call_device_alloc, call_device_register, hfunc, halloc]
  · intro hneg
    simp [lm75_probe, lm75_identify, call_read_word_swapped, hfunc, hid, hneg]

/-- Witness of C7: on the register-file bus, an identity register holding 0xFF
makes the probe fail with -ENODEV, one holding 0x7 makes it succeed, and on a
bus failing with -5 the probe returns -5. -/
theorem probe_identifies_device_witness :
    (lm75_probe regPlatform (regWorld 0xFF) 0).ret = -ENODEV ∧
    (lm75_probe regPlatform (regWorld 0x7) 0).ret = 0 ∧
    (lm75_probe (failPlatform (-5)) (regWorld 0x7) 0).ret = -5 :=
  ⟨((probe_identifies_device regPlatform (regWorld 0xFF) 0 0xFF (by decide)
      (by decide)).1 (by decide) (by decide)).1,
   (((probe_identifies_device regPlatform (regWorld 0x7) 0 0x7 (by decide)
      (by decide)).2.1 (by decide)).2 (by decide)).2.1 (by decide),
   ((probe_identifies_device (failPlatform (-5)) (regWorld 0x7) 0 (-5) (by decide)
      (by decide)).2.2 (by decide)).1⟩

end LM75
